import Mathlib

/-!
Verification of the fundamental-indicator screener.

The repository has two near-duplicate pipeline variants:

* `src/screener.py`, class `FundamentalistaBR` — parses Fundamentus label/value
  pairs (`_converter_valor`), maps labels to canonical keys, scores
  (`_calcular_score`) and classifies (`_classificar`);
* `src/src/screener.py`, class `ScreenerRealBR` — merges a yfinance record with
  a Status Invest record (`dados.update(dados_status)`), scores
  (`calcular_score`) and classifies (`classificar`).

Numbers are modelled as rationals (`ℚ`); every Python float literal in the
scoring code (15, 1.5, 4.0, 12.0, 0.8, 3.0, weights 20/25/10) is exactly
representable, so no rounding is lost.  A Python value that may be `None` is
an `Option ℚ`; `dict.get` of a missing key and a key stored as `None` both
read as `none`.  Python truthiness of a float (`if pl and ...`) is `≠ 0` on
the value, and `None` is falsy.
-/

/-- Classification tiers, lowest to highest, as returned by `_classificar`
(src/screener.py lines 181-190) and `classificar` (src/src/screener.py lines
168-177).  The Portuguese names are the strings the code returns. -/
inductive Tier
  | ESPECULATIVO
  | ACEITAVEL
  | BOM
  | EXCELENTE
deriving DecidableEq, Repr

/-- Position of a tier in the tier order (SPECULATIVE lowest, EXCELLENT
highest), used to state monotonicity of the classifier. -/
def Tier.rank : Tier → ℕ
  | .ESPECULATIVO => 0
  | .ACEITAVEL => 1
  | .BOM => 2
  | .EXCELENTE => 3

namespace FundamentalistaBR

/-- The five fields of the `resultado` dict that `_calcular_score`
(src/screener.py lines 155-179) reads.  `resultado` also carries `ticker`,
`roic`, `cresc_5_anos` and `liquidez_2_meses`, which the score and the
classifier never read, so they are omitted from the model. -/
structure Resultado where
  pl : Option ℚ := none
  pvp : Option ℚ := none
  dy : Option ℚ := none
  roe : Option ℚ := none
  div_brut_patrim : Option ℚ := none
deriving DecidableEq, Repr

/-- Investment criteria from `self.criterios` (src/screener.py lines 33-39). -/
def pl_max : ℚ := 15

/-- Criterion `pvp_max = 1.5`. -/
def pvp_max : ℚ := 3 / 2

/-- Criterion `dy_min = 4.0` (%). -/
def dy_min : ℚ := 4

/-- Criterion `roe_min = 12.0` (%). -/
def roe_min : ℚ := 12

/-- Criterion `div_bruta_patrim_max = 0.8`. -/
def div_bruta_patrim_max : ℚ := 4 / 5

/-- P/L item of `_calcular_score` (src/screener.py lines 159-161):
`if dados.get('pl') is not None and dados['pl'] <= pl_max: score += 20 * (1 -
min(dados['pl'] / pl_max, 1))`.  Note the guard tests only `pl ≤ 15`; there
is no `0 < pl` test in this variant. -/
def scorePL (d : Resultado) : ℚ :=
  match d.pl with
  | none => 0
  | some pl => if pl ≤ pl_max then 20 * (1 - min (pl / pl_max) 1) else 0

/-- P/VP item (src/screener.py lines 163-165), same shape as the P/L item
with weight 20 and ceiling `pvp_max = 1.5`. -/
def scorePVP (d : Resultado) : ℚ :=
  match d.pvp with
  | none => 0
  | some pvp => if pvp ≤ pvp_max then 20 * (1 - min (pvp / pvp_max) 1) else 0

/-- DY item (src/screener.py lines 167-169): `if dados.get('dy') is not None
and dados['dy'] >= dy_min: score += 25 * min(dados['dy'] / dy_min, 2)`. -/
def scoreDY (d : Resultado) : ℚ :=
  match d.dy with
  | none => 0
  | some dy => if dy_min ≤ dy then 25 * min (dy / dy_min) 2 else 0

/-- ROE item (src/screener.py lines 171-173), same bonus shape as DY with
weight 25 and floor `roe_min = 12`. -/
def scoreROE (d : Resultado) : ℚ :=
  match d.roe with
  | none => 0
  | some roe => if roe_min ≤ roe then 25 * min (roe / roe_min) 2 else 0

/-- Debt item (src/screener.py lines 175-177): decaying shape with weight 10
and ceiling `div_bruta_patrim_max = 0.8`; the guard is only `≤`, as for P/L. -/
def scoreDiv (d : Resultado) : ℚ :=
  match d.div_brut_patrim with
  | none => 0
  | some dv =>
      if dv ≤ div_bruta_patrim_max then
        10 * (1 - min (dv / div_bruta_patrim_max) 1)
      else 0

/-- The whole of `_calcular_score` (src/screener.py lines 155-179): the five
item contributions summed from `score = 0.0`, then `min(score, 100.0)`. -/
def calcular_score (d : Resultado) : ℚ :=
  min (scorePL d + scorePVP d + scoreDY d + scoreROE d + scoreDiv d) 100

/-- The classifier `_classificar` (src/screener.py lines 181-190): the
`if score >= 80 / elif score >= 60 / elif score >= 40 / else` chain. -/
def classificar (s : ℚ) : Tier :=
  if 80 ≤ s then .EXCELENTE
  else if 60 ≤ s then .BOM
  else if 40 ≤ s then .ACEITAVEL
  else .ESPECULATIVO

/-- Characters Python's `str.strip()` removes at both ends (the ASCII
whitespace of the values at hand: space, tab, newline, carriage return,
vertical tab, form feed). -/
def isPySpace (c : Char) : Bool :=
  c == ' ' || c == '\t' || c == '\n' || c == '\r' || c == '\x0b' || c == '\x0c'

/-- Python `str.strip()`: drop whitespace at both ends. -/
def pyStrip (l : List Char) : List Char :=
  ((l.dropWhile isPySpace).reverse.dropWhile isPySpace).reverse

/-- Python `.replace('R$', '')`: remove every (non-overlapping, left-to-right)
occurrence of the two-character currency marker. -/
def removeRS : List Char → List Char
  | [] => []
  | 'R' :: '$' :: rest => removeRS rest
  | c :: rest => c :: removeRS rest

/-- Python `.replace('.', '')`: remove every dot. -/
def removeDots (l : List Char) : List Char :=
  l.filter (fun c => c != '.')

/-- Python `.replace(',', '.')`: turn every comma into a dot. -/
def commaToDot (l : List Char) : List Char :=
  l.map (fun c => if c == ',' then '.' else c)

/-- Python `.replace('%', '')`: remove every percent sign. -/
def removePercent (l : List Char) : List Char :=
  l.filter (fun c => c != '%')

/-- The cleaning line of `_converter_valor` (src/screener.py line 148):
`valor_limpo.replace('R$', '').replace('.', '').replace(',', '.')
.replace('%', '').strip()`, applied in the source's order. -/
def limpar (l : List Char) : List Char :=
  pyStrip (removePercent (commaToDot (removeDots (removeRS l))))

/-- Numeric value of a digit character. -/
def digitToNat (c : Char) : ℕ :=
  c.toNat - '0'.toNat

/-- Value of a string of decimal digits (empty list reads as 0; callers
require at least one digit overall). -/
def natOfDigits (l : List Char) : ℕ :=
  l.foldl (fun a c => 10 * a + digitToNat c) 0

/-- Unsigned part of Python `float()` on the already-stripped cleaned string:
digits, an optional decimal point, digits, with at least one digit in all.
The exotic inputs `float` also accepts (exponents, `inf`, `nan`, underscore
digit grouping) never survive the cleaning of a Fundamentus value and are not
modelled; anything outside this grammar parses to `none` (the `except` path). -/
def pyFloatMag (l : List Char) : Option ℚ :=
  let ip := l.takeWhile Char.isDigit
  match l.dropWhile Char.isDigit with
  | [] => if ip.isEmpty then none else some (natOfDigits ip)
  | '.' :: fp =>
      if fp.all Char.isDigit && !(ip.isEmpty && fp.isEmpty) then
        some ((natOfDigits ip : ℚ) + (natOfDigits fp : ℚ) / 10 ^ fp.length)
      else none
  | _ => none

/-- Python `float()` on a stripped string: an optional single leading sign,
then the unsigned decimal form; any other input raises, which
`_converter_valor` turns into `None`. -/
def pyFloat : List Char → Option ℚ
  | '+' :: rest => pyFloatMag rest
  | '-' :: rest => (pyFloatMag rest).map (fun q => -q)
  | l => pyFloatMag l

/-- The value parser `_converter_valor` (src/screener.py lines 138-153):
strip; return `None` for the empty string and the placeholders `'-'` and
`'N/A'`; otherwise clean currency, dots, commas and percent signs and parse
as a float, with any failure caught and returned as `None`. -/
def converter_valor (s : String) : Option ℚ :=
  let valor_limpo := pyStrip s.data
  if valor_limpo = [] ∨ valor_limpo = ['-'] ∨ valor_limpo = ['N', '/', 'A'] then none
  else pyFloat (limpar valor_limpo)

end FundamentalistaBR

namespace ScreenerRealBR

/-- The per-instrument dict of `ScreenerRealBR`: the numeric fields set by
`coletar_yfinance` (src/src/screener.py lines 49-62: pl, pvp, dy, preco,
volume, market_cap and roe_aprox) and the fields the Status Invest merge
writes (roe, roic, div_liq_ebitda).  Before the merge the latter three are
`none`; `ticker` (a string) is never read by the score and is omitted. -/
structure Dados where
  pl : Option ℚ := none
  pvp : Option ℚ := none
  dy : Option ℚ := none
  preco : Option ℚ := none
  volume : Option ℚ := none
  market_cap : Option ℚ := none
  roe_aprox : Option ℚ := none
  roe : Option ℚ := none
  roic : Option ℚ := none
  div_liq_ebitda : Option ℚ := none
deriving DecidableEq, Repr

/-- The dict `coletar_status_invest` returns on its success path
(src/src/screener.py lines 124-128): keys roe, roic and div_liq_ebitda, each
possibly `None`.  On failure the function returns the empty dict `{}`,
modelled as `Option.none` around this structure at the merge. -/
structure DadosStatus where
  roe : Option ℚ := none
  roic : Option ℚ := none
  div_liq_ebitda : Option ℚ := none
deriving DecidableEq, Repr

/-- The approximated ROE of `coletar_yfinance` (src/src/screener.py lines
59-61): `if dados['pl'] and dados['pvp']: dados['roe_aprox'] = (dados['pvp']
/ dados['pl']) * 100 if dados['pl'] != 0 else None`.  Python truthiness of
the guard is `≠ None` and `≠ 0`; the inner `!= 0` test of the source is kept
even though the guard already implies it.  When the guard is falsy the key is
never set, which reads back as `none`. -/
def roe_aprox (pl pvp : Option ℚ) : Option ℚ :=
  match pl, pvp with
  | some p, some v => if p ≠ 0 ∧ v ≠ 0 then (if p ≠ 0 then some (v / p * 100) else none) else none
  | _, _ => none

/-- The roe fallback of `calcular_score` (src/src/screener.py line 157):
`roe = dados.get('roe') or dados.get('roe_aprox')`.  Python `or` yields its
second operand whenever the first is falsy, i.e. when the reported roe is
`None` or exactly `0.0`. -/
def roeOr (roe roe_ap : Option ℚ) : Option ℚ :=
  match roe with
  | some r => if r ≠ 0 then some r else roe_ap
  | none => roe_ap

/-- P/L item of `calcular_score` (src/src/screener.py lines 142-144):
`pl = dados.get('pl'); if pl and 0 < pl <= 15: score += 20 * (1 - min(pl / 15,
1))`.  The truthiness test `pl` is `pl ≠ 0` on a present value. -/
def scorePL (d : Dados) : ℚ :=
  match d.pl with
  | none => 0
  | some pl => if pl ≠ 0 ∧ 0 < pl ∧ pl ≤ 15 then 20 * (1 - min (pl / 15) 1) else 0

/-- P/VP item (src/src/screener.py lines 147-149): `if pvp and 0 < pvp <= 1.5`. -/
def scorePVP (d : Dados) : ℚ :=
  match d.pvp with
  | none => 0
  | some pvp => if pvp ≠ 0 ∧ 0 < pvp ∧ pvp ≤ 3 / 2 then 20 * (1 - min (pvp / (3 / 2)) 1) else 0

/-- DY item (src/src/screener.py lines 152-154): `if dy and dy >= 4.0:
score += 25 * min(dy / 4.0, 2.0)`. -/
def scoreDY (d : Dados) : ℚ :=
  match d.dy with
  | none => 0
  | some dy => if dy ≠ 0 ∧ 4 ≤ dy then 25 * min (dy / 4) 2 else 0

/-- ROE item (src/src/screener.py lines 156-159): the `roeOr` fallback, then
`if roe and roe >= 12.0: score += 25 * min(roe / 12.0, 2.0)`. -/
def scoreROE (d : Dados) : ℚ :=
  match roeOr d.roe d.roe_aprox with
  | none => 0
  | some roe => if roe ≠ 0 ∧ 12 ≤ roe then 25 * min (roe / 12) 2 else 0

/-- Debt item (src/src/screener.py lines 162-164): `if div is not None and
div <= 3.0: score += 10 * (1 - min(div / 3.0, 1))`.  This guard is an
explicit `is not None`, so a present `0.0` (or a negative net-cash value) is
scored. -/
def scoreDiv (d : Dados) : ℚ :=
  match d.div_liq_ebitda with
  | none => 0
  | some dv => if dv ≤ 3 then 10 * (1 - min (dv / 3) 1) else 0

/-- The whole of `calcular_score` (src/src/screener.py lines 137-166): the
five item contributions summed from `score = 0.0`, then `min(score, 100.0)`. -/
def calcular_score (d : Dados) : ℚ :=
  min (scorePL d + scorePVP d + scoreDY d + scoreROE d + scoreDiv d) 100

/-- The classifier `classificar` (src/src/screener.py lines 168-177),
textually identical to `FundamentalistaBR._classificar`. -/
def classificar (s : ℚ) : Tier :=
  if 80 ≤ s then .EXCELENTE
  else if 60 ≤ s then .BOM
  else if 40 ≤ s then .ACEITAVEL
  else .ESPECULATIVO

/-- The merge of `dados.update(dados_status)` (src/src/screener.py line 202).
`dict.update` writes every key of `dados_status` into `dados` in place: the
merged record and the post-state of the yfinance record `dados` are the same
object.  Modelled as explicit state passing: the result is the value the name
`dados` holds after the statement.  `coletar_status_invest` returns either a
full `{roe, roic, div_liq_ebitda}` dict (`some st`) or the empty dict on
failure (`none`), and updating with the empty dict changes nothing. -/
def update (dados : Dados) (dados_status : Option DadosStatus) : Dados :=
  match dados_status with
  | none => dados
  | some st =>
      { dados with roe := st.roe, roic := st.roic, div_liq_ebitda := st.div_liq_ebitda }

end ScreenerRealBR

/-- Specified price-to-earnings contribution, written from the claim's words
(claim C2 / spec §4.4): contributes `weight × (1 − min(pl / ceiling, 1))`
exactly when `0 < pl ≤ ceiling`, and exactly 0 for every other value of pl,
absent included.  Spec side of a refinement statement, to be compared with
the two implementations' P/L items. -/
def specContribPL (weight ceiling : ℚ) (pl : Option ℚ) : ℚ :=
  match pl with
  | none => 0
  | some v => if 0 < v ∧ v ≤ ceiling then weight * (1 - min (v / ceiling) 1) else 0

/-- Specified per-field reconciliation, written from the claim's words
(claim C8 / spec §4.3): the value from the highest-priority source that
provides a non-absent value for the field; absent when no source provides
one.  Spec side of a refinement statement, to be compared with the roe
fallback `ScreenerRealBR.roeOr`. -/
def specReconcile (hi lo : Option ℚ) : Option ℚ :=
  match hi with
  | some v => some v
  | none => lo

/-! ## Helper lemmas -/

/-- Decaying items never go negative: since `min x 1 ≤ 1`, a nonnegative
weight times `1 − min x 1` is nonnegative — even when the raw value is
negative (where `1 − min x 1 > 1`). -/
lemma decay_item_nonneg (w x : ℚ) (hw : 0 ≤ w) : 0 ≤ w * (1 - min x 1) := by
  have h := min_le_right x 1
  nlinarith

/-- Bonus items never go negative on the branch that awards them. -/
lemma bonus_item_nonneg (w x c : ℚ) (hw : 0 ≤ w) (hx : 0 ≤ x) (hc : 0 ≤ c) :
    0 ≤ w * min x c :=
  mul_nonneg hw (le_min hx hc)

lemma FundamentalistaBR.scorePL_nonneg (d : FundamentalistaBR.Resultado) :
    0 ≤ FundamentalistaBR.scorePL d := by
  cases hpl : d.pl with
  | none => simp [FundamentalistaBR.scorePL, hpl]
  | some v =>
      simp only [FundamentalistaBR.scorePL, hpl]
      split_ifs with h
      · exact decay_item_nonneg 20 _ (by norm_num)
      · exact le_refl 0

lemma FundamentalistaBR.scorePVP_nonneg (d : FundamentalistaBR.Resultado) :
    0 ≤ FundamentalistaBR.scorePVP d := by
  cases hp : d.pvp with
  | none => simp [FundamentalistaBR.scorePVP, hp]
  | some v =>
      simp only [FundamentalistaBR.scorePVP, hp]
      split_ifs with h
      · exact decay_item_nonneg 20 _ (by norm_num)
      · exact le_refl 0

lemma FundamentalistaBR.scoreDY_nonneg (d : FundamentalistaBR.Resultado) :
    0 ≤ FundamentalistaBR.scoreDY d := by
  cases hp : d.dy with
  | none => simp [FundamentalistaBR.scoreDY, hp]
  | some v =>
      simp only [FundamentalistaBR.scoreDY, hp]
      split_ifs with h
      · have hv : (0 : ℚ) ≤ v / FundamentalistaBR.dy_min := by
          have h4 : (0 : ℚ) < FundamentalistaBR.dy_min := by norm_num [FundamentalistaBR.dy_min]
          exact div_nonneg (le_trans (le_of_lt h4) h) (le_of_lt h4)
        exact bonus_item_nonneg 25 _ 2 (by norm_num) hv (by norm_num)
      · exact le_refl 0

lemma FundamentalistaBR.scoreROE_nonneg (d : FundamentalistaBR.Resultado) :
    0 ≤ FundamentalistaBR.scoreROE d := by
  cases hp : d.roe with
  | none => simp [FundamentalistaBR.scoreROE, hp]
  | some v =>
      simp only [FundamentalistaBR.scoreROE, hp]
      split_ifs with h
      · have hv : (0 : ℚ) ≤ v / FundamentalistaBR.roe_min := by
          have h12 : (0 : ℚ) < FundamentalistaBR.roe_min := by norm_num [FundamentalistaBR.roe_min]
          have hv0 : (0 : ℚ) ≤ v := le_trans (le_of_lt h12) h
          exact div_nonneg hv0 (le_of_lt h12)
        exact bonus_item_nonneg 25 _ 2 (by norm_num) hv (by norm_num)
      · exact le_refl 0

lemma FundamentalistaBR.scoreDiv_nonneg (d : FundamentalistaBR.Resultado) :
    0 ≤ FundamentalistaBR.scoreDiv d := by
  cases hp : d.div_brut_patrim with
  | none => simp [FundamentalistaBR.scoreDiv, hp]
  | some v =>
      simp only [FundamentalistaBR.scoreDiv, hp]
      split_ifs with h
      · exact decay_item_nonneg 10 _ (by norm_num)
      · exact le_refl 0

lemma ScreenerRealBR.scorePL_nonneg_sr (d : ScreenerRealBR.Dados) :
    0 ≤ ScreenerRealBR.scorePL d := by
  cases hp : d.pl with
  | none => simp [ScreenerRealBR.scorePL, hp]
  | some v =>
      simp only [ScreenerRealBR.scorePL, hp]
      split_ifs with h
      · exact decay_item_nonneg 20 _ (by norm_num)
      · exact le_refl 0

lemma ScreenerRealBR.scorePVP_nonneg_sr (d : ScreenerRealBR.Dados) :
    0 ≤ ScreenerRealBR.scorePVP d := by
  cases hp : d.pvp with
  | none => simp [ScreenerRealBR.scorePVP, hp]
  | some v =>
      simp only [ScreenerRealBR.scorePVP, hp]
      split_ifs with h
      · exact decay_item_nonneg 20 _ (by norm_num)
      · exact le_refl 0

lemma ScreenerRealBR.scoreDY_nonneg_sr (d : ScreenerRealBR.Dados) :
    0 ≤ ScreenerRealBR.scoreDY d := by
  cases hp : d.dy with
  | none => simp [ScreenerRealBR.scoreDY, hp]
  | some v =>
      simp only [ScreenerRealBR.scoreDY, hp]
      split_ifs with h
      · have hv : (0 : ℚ) ≤ v / 4 :=
          div_nonneg (le_trans (by norm_num) h.2) (by norm_num)
        exact bonus_item_nonneg 25 _ 2 (by norm_num) hv (by norm_num)
      · exact le_refl 0

lemma ScreenerRealBR.scoreROE_nonneg_sr (d : ScreenerRealBR.Dados) :
    0 ≤ ScreenerRealBR.scoreROE d := by
  cases hp : ScreenerRealBR.roeOr d.roe d.roe_aprox with
  | none => simp [ScreenerRealBR.scoreROE, hp]
  | some v =>
      simp only [ScreenerRealBR.scoreROE, hp]
      split_ifs with h
      · have hv : (0 : ℚ) ≤ v / 12 :=
          div_nonneg (le_trans (by norm_num) h.2) (by norm_num)
        exact bonus_item_nonneg 25 _ 2 (by norm_num) hv (by norm_num)
      · exact le_refl 0

lemma ScreenerRealBR.scoreDiv_nonneg_sr (d : ScreenerRealBR.Dados) :
    0 ≤ ScreenerRealBR.scoreDiv d := by
  cases hp : d.div_liq_ebitda with
  | none => simp [ScreenerRealBR.scoreDiv, hp]
  | some v =>
      simp only [ScreenerRealBR.scoreDiv, hp]
      split_ifs with h
      · exact decay_item_nonneg 10 _ (by norm_num)
      · exact le_refl 0

/-! ## Claim theorems -/

/-- Claim C1: for every indicator record (each of pl, pvp, dy, roe and the
debt indicator a rational or absent) and the built-in weights and thresholds,
the score function of either variant returns a value between 0.0 and 100.0:
every item contribution is nonnegative (also on the unguarded negative-value
branches of `FundamentalistaBR`), and the sum is clamped by `min(·, 100.0)`. -/
theorem claim_C1_score_in_range :
    (∀ d : FundamentalistaBR.Resultado,
        0 ≤ FundamentalistaBR.calcular_score d ∧ FundamentalistaBR.calcular_score d ≤ 100)
  ∧ (∀ d : ScreenerRealBR.Dados,
        0 ≤ ScreenerRealBR.calcular_score d ∧ ScreenerRealBR.calcular_score d ≤ 100) := by
  constructor
  · intro d
    refine ⟨le_min ?_ (by norm_num), min_le_right _ _⟩
    have h1 := FundamentalistaBR.scorePL_nonneg d
    have h2 := FundamentalistaBR.scorePVP_nonneg d
    have h3 := FundamentalistaBR.scoreDY_nonneg d
    have h4 := FundamentalistaBR.scoreROE_nonneg d
    have h5 := FundamentalistaBR.scoreDiv_nonneg d
    linarith
  · intro d
    refine ⟨le_min ?_ (by norm_num), min_le_right _ _⟩
    have h1 := ScreenerRealBR.scorePL_nonneg_sr d
    have h2 := ScreenerRealBR.scorePVP_nonneg_sr d
    have h3 := ScreenerRealBR.scoreDY_nonneg_sr d
    have h4 := ScreenerRealBR.scoreROE_nonneg_sr d
    have h5 := ScreenerRealBR.scoreDiv_nonneg_sr d
    linarith

/-- The two classifiers are textually identical if-chains. -/
lemma classificar_eq_fb (s : ℚ) :
    ScreenerRealBR.classificar s = FundamentalistaBR.classificar s := rfl

/-- Monotonicity of the classifier if-chain under the tier order. -/
lemma classificar_rank_mono (a b : ℚ) (hab : a ≤ b) :
    Tier.rank (FundamentalistaBR.classificar a) ≤ Tier.rank (FundamentalistaBR.classificar b) := by
  unfold FundamentalistaBR.classificar
  split_ifs <;> simp only [Tier.rank] <;> first | omega | linarith

/-- Claim C5: both classifiers are total on scores, return EXCELENTE for
score ≥ 80, BOM on [60, 80), ACEITAVEL on [40, 60) and ESPECULATIVO below 40
(the if/elif chain tests the highest cutoff first), and they are monotone:
a strictly higher score never gets a strictly lower tier. -/
theorem claim_C5_classifier :
    (∀ s : ℚ, 80 ≤ s →
        FundamentalistaBR.classificar s = Tier.EXCELENTE
      ∧ ScreenerRealBR.classificar s = Tier.EXCELENTE)
  ∧ (∀ s : ℚ, 60 ≤ s → s < 80 →
        FundamentalistaBR.classificar s = Tier.BOM
      ∧ ScreenerRealBR.classificar s = Tier.BOM)
  ∧ (∀ s : ℚ, 40 ≤ s → s < 60 →
        FundamentalistaBR.classificar s = Tier.ACEITAVEL
      ∧ ScreenerRealBR.classificar s = Tier.ACEITAVEL)
  ∧ (∀ s : ℚ, s < 40 →
        FundamentalistaBR.classificar s = Tier.ESPECULATIVO
      ∧ ScreenerRealBR.classificar s = Tier.ESPECULATIVO)
  ∧ (∀ a b : ℚ, a < b →
        Tier.rank (FundamentalistaBR.classificar a) ≤ Tier.rank (FundamentalistaBR.classificar b)
      ∧ Tier.rank (ScreenerRealBR.classificar a) ≤ Tier.rank (ScreenerRealBR.classificar b)) := by
  refine ⟨fun s h80 => ?_, fun s h60 h80 => ?_, fun s h40 h60 => ?_, fun s h40 => ?_,
    fun a b hab => ?_⟩
  · rw [classificar_eq_fb]
    constructor <;> · unfold FundamentalistaBR.classificar; rw [if_pos h80]
  · rw [classificar_eq_fb]
    constructor <;>
      · unfold FundamentalistaBR.classificar
        rw [if_neg (by linarith), if_pos h60]
  · rw [classificar_eq_fb]
    constructor <;>
      · unfold FundamentalistaBR.classificar
        rw [if_neg (by linarith), if_neg (by linarith), if_pos h40]
  · rw [classificar_eq_fb]
    constructor <;>
      · unfold FundamentalistaBR.classificar
        rw [if_neg (by linarith), if_neg (by linarith), if_neg (by linarith)]
  · rw [classificar_eq_fb, classificar_eq_fb]
    exact ⟨classificar_rank_mono a b (le_of_lt hab), classificar_rank_mono a b (le_of_lt hab)⟩

/-- Claim C4: an absent indicator contributes exactly 0 to either variant's
score sum (for the ScreenerRealBR roe item, "absent" is both the reported roe
and its approximation absent, since the item scores their reconciliation),
and the all-absent record gets score 0.0 and tier ESPECULATIVO in both
variants. -/
theorem claim_C4_absent_contributes_zero :
    (∀ d : FundamentalistaBR.Resultado, d.pl = none → FundamentalistaBR.scorePL d = 0)
  ∧ (∀ d : FundamentalistaBR.Resultado, d.pvp = none → FundamentalistaBR.scorePVP d = 0)
  ∧ (∀ d : FundamentalistaBR.Resultado, d.dy = none → FundamentalistaBR.scoreDY d = 0)
  ∧ (∀ d : FundamentalistaBR.Resultado, d.roe = none → FundamentalistaBR.scoreROE d = 0)
  ∧ (∀ d : FundamentalistaBR.Resultado, d.div_brut_patrim = none →
        FundamentalistaBR.scoreDiv d = 0)
  ∧ (∀ d : ScreenerRealBR.Dados, d.pl = none → ScreenerRealBR.scorePL d = 0)
  ∧ (∀ d : ScreenerRealBR.Dados, d.pvp = none → ScreenerRealBR.scorePVP d = 0)
  ∧ (∀ d : ScreenerRealBR.Dados, d.dy = none → ScreenerRealBR.scoreDY d = 0)
  ∧ (∀ d : ScreenerRealBR.Dados, d.roe = none → d.roe_aprox = none →
        ScreenerRealBR.scoreROE d = 0)
  ∧ (∀ d : ScreenerRealBR.Dados, d.div_liq_ebitda = none → ScreenerRealBR.scoreDiv d = 0)
  ∧ FundamentalistaBR.calcular_score {} = 0
  ∧ FundamentalistaBR.classificar (FundamentalistaBR.calcular_score {}) = Tier.ESPECULATIVO
  ∧ ScreenerRealBR.calcular_score {} = 0
  ∧ ScreenerRealBR.classificar (ScreenerRealBR.calcular_score {}) = Tier.ESPECULATIVO := by
  have hA : FundamentalistaBR.calcular_score {} = 0 := by
    norm_num [FundamentalistaBR.calcular_score, FundamentalistaBR.scorePL,
      FundamentalistaBR.scorePVP, FundamentalistaBR.scoreDY, FundamentalistaBR.scoreROE,
      FundamentalistaBR.scoreDiv]
  have hB : ScreenerRealBR.calcular_score {} = 0 := by
    norm_num [ScreenerRealBR.calcular_score, ScreenerRealBR.scorePL, ScreenerRealBR.scorePVP,
      ScreenerRealBR.scoreDY, ScreenerRealBR.scoreROE, ScreenerRealBR.scoreDiv,
      ScreenerRealBR.roeOr]
  refine ⟨fun d h => by simp [FundamentalistaBR.scorePL, h],
    fun d h => by simp [FundamentalistaBR.scorePVP, h],
    fun d h => by simp [FundamentalistaBR.scoreDY, h],
    fun d h => by simp [FundamentalistaBR.scoreROE, h],
    fun d h => by simp [FundamentalistaBR.scoreDiv, h],
    fun d h => by simp [ScreenerRealBR.scorePL, h],
    fun d h => by simp [ScreenerRealBR.scorePVP, h],
    fun d h => by simp [ScreenerRealBR.scoreDY, h],
    fun d h1 h2 => by simp [ScreenerRealBR.scoreROE, ScreenerRealBR.roeOr, h1, h2],
    fun d h => by simp [ScreenerRealBR.scoreDiv, h],
    hA, by rw [hA]; norm_num [FundamentalistaBR.classificar],
    hB, by rw [hB]; norm_num [ScreenerRealBR.classificar]⟩

/-- Claim C3, counterexample: on the record pl=10, pvp=1.0, dy=6.0, roe=20.0,
div_brut_patrim=0.5 the score of `_calcular_score` is exactly 385/4 = 96.25,
not 498/5 = 99.6 as the claim states (the spec's own listed contributions,
6.67+6.67+37.5+41.67+3.75, already sum to 96.26, not 99.6). -/
theorem claim_C3_counterexample :
    FundamentalistaBR.calcular_score
        { pl := some 10, pvp := some 1, dy := some 6, roe := some 20,
          div_brut_patrim := some (1 / 2) } = 385 / 4
  ∧ FundamentalistaBR.calcular_score
        { pl := some 10, pvp := some 1, dy := some 6, roe := some 20,
          div_brut_patrim := some (1 / 2) } ≠ 498 / 5 := by
  have h : FundamentalistaBR.calcular_score
      { pl := some 10, pvp := some 1, dy := some 6, roe := some 20,
        div_brut_patrim := some (1 / 2) } = 385 / 4 := by
    norm_num [FundamentalistaBR.calcular_score, FundamentalistaBR.scorePL,
      FundamentalistaBR.scorePVP, FundamentalistaBR.scoreDY, FundamentalistaBR.scoreROE,
      FundamentalistaBR.scoreDiv, FundamentalistaBR.pl_max, FundamentalistaBR.pvp_max,
      FundamentalistaBR.dy_min, FundamentalistaBR.roe_min,
      FundamentalistaBR.div_bruta_patrim_max, min_def]
  refine ⟨h, by rw [h]; norm_num⟩

/-- Claim C3 as amended: on the record pl=10, pvp=1.0, dy=6.0, roe=20.0,
div_brut_patrim=0.5, under the built-in weights (20,20,25,25,10) and
thresholds (15, 1.5, 4.0, 12.0, 0.8), the items contribute 20/3, 20/3, 75/2,
125/3 and 15/4 (≈6.67, 6.67, 37.5, 41.67, 3.75); the raw sum is exactly
385/4 = 96.25, the clamp `min(96.25, 100)` leaves it unchanged, and the tier
is EXCELENTE. -/
theorem claim_C3_example_score :
    FundamentalistaBR.scorePL
        { pl := some 10, pvp := some 1, dy := some 6, roe := some 20,
          div_brut_patrim := some (1 / 2) } = 20 / 3
  ∧ FundamentalistaBR.scorePVP
        { pl := some 10, pvp := some 1, dy := some 6, roe := some 20,
          div_brut_patrim := some (1 / 2) } = 20 / 3
  ∧ FundamentalistaBR.scoreDY
        { pl := some 10, pvp := some 1, dy := some 6, roe := some 20,
          div_brut_patrim := some (1 / 2) } = 75 / 2
  ∧ FundamentalistaBR.scoreROE
        { pl := some 10, pvp := some 1, dy := some 6, roe := some 20,
          div_brut_patrim := some (1 / 2) } = 125 / 3
  ∧ FundamentalistaBR.scoreDiv
        { pl := some 10, pvp := some 1, dy := some 6, roe := some 20,
          div_brut_patrim := some (1 / 2) } = 15 / 4
  ∧ FundamentalistaBR.calcular_score
        { pl := some 10, pvp := some 1, dy := some 6, roe := some 20,
          div_brut_patrim := some (1 / 2) } = 385 / 4
  ∧ FundamentalistaBR.classificar
        (FundamentalistaBR.calcular_score
          { pl := some 10, pvp := some 1, dy := some 6, roe := some 20,
            div_brut_patrim := some (1 / 2) }) = Tier.EXCELENTE := by
  have h : FundamentalistaBR.calcular_score
      { pl := some 10, pvp := some 1, dy := some 6, roe := some 20,
        div_brut_patrim := some (1 / 2) } = 385 / 4 := by
    norm_num [FundamentalistaBR.calcular_score, FundamentalistaBR.scorePL,
      FundamentalistaBR.scorePVP, FundamentalistaBR.scoreDY, FundamentalistaBR.scoreROE,
      FundamentalistaBR.scoreDiv, FundamentalistaBR.pl_max, FundamentalistaBR.pvp_max,
      FundamentalistaBR.dy_min, FundamentalistaBR.roe_min,
      FundamentalistaBR.div_bruta_patrim_max, min_def]
  refine ⟨?_, ?_, ?_, ?_, ?_, h, by rw [h]; norm_num [FundamentalistaBR.classificar]⟩ <;>
    norm_num [FundamentalistaBR.scorePL, FundamentalistaBR.scorePVP, FundamentalistaBR.scoreDY,
      FundamentalistaBR.scoreROE, FundamentalistaBR.scoreDiv, FundamentalistaBR.pl_max,
      FundamentalistaBR.pvp_max, FundamentalistaBR.dy_min, FundamentalistaBR.roe_min,
      FundamentalistaBR.div_bruta_patrim_max, min_def]

/-- Claim C2, counterexample: `FundamentalistaBR._calcular_score` has no
`0 < pl` guard, so a present pl = −5 is scored: its P/L item contributes
20 × (1 − min(−5/15, 1)) = 80/3 ≈ 26.67, where the claim (and the spec's
`specContribPL`) says it contributes exactly 0. -/
theorem claim_C2_counterexample :
    FundamentalistaBR.scorePL
        { pl := some (-5), pvp := none, dy := none, roe := none, div_brut_patrim := none }
      = 80 / 3
  ∧ specContribPL 20 15 (some (-5)) = 0
  ∧ FundamentalistaBR.scorePL
        { pl := some (-5), pvp := none, dy := none, roe := none, div_brut_patrim := none }
      ≠ specContribPL 20 15 (some (-5)) := by
  have h1 : FundamentalistaBR.scorePL
      { pl := some (-5), pvp := none, dy := none, roe := none, div_brut_patrim := none }
      = 80 / 3 := by
    norm_num [FundamentalistaBR.scorePL, FundamentalistaBR.pl_max, min_def]
  have h2 : specContribPL 20 15 (some (-5)) = 0 := by
    norm_num [specContribPL]
  exact ⟨h1, h2, by rw [h1, h2]; norm_num⟩

/-- Claim C2 as amended: in `ScreenerRealBR.calcular_score` the P/L item is
exactly the claimed contribution (`weight × (1 − min(pl/15, 1))` when
`0 < pl ≤ 15`, else 0 — the extra Python truthiness test `pl` is implied by
`0 < pl`); in `FundamentalistaBR._calcular_score` the guard omits `0 < pl`:
a present `pl ≤ 0` contributes `20 × (1 − pl/15) ≥ 20`, and the item is 0
exactly when pl is absent or `pl > 15`. -/
theorem claim_C2_pl_contribution :
    (∀ d : ScreenerRealBR.Dados, ScreenerRealBR.scorePL d = specContribPL 20 15 d.pl)
  ∧ (∀ (d : FundamentalistaBR.Resultado) (v : ℚ), d.pl = some v → v ≤ 0 →
        FundamentalistaBR.scorePL d = 20 * (1 - v / 15) ∧ 20 ≤ FundamentalistaBR.scorePL d)
  ∧ (∀ (d : FundamentalistaBR.Resultado) (v : ℚ), d.pl = some v → 15 < v →
        FundamentalistaBR.scorePL d = 0)
  ∧ (∀ d : FundamentalistaBR.Resultado, d.pl = none → FundamentalistaBR.scorePL d = 0) := by
  refine ⟨fun d => ?_, fun d v hv h0 => ?_, fun d v hv h15 => ?_,
    fun d h => by simp [FundamentalistaBR.scorePL, h]⟩
  · cases hp : d.pl with
    | none => simp [ScreenerRealBR.scorePL, specContribPL, hp]
    | some v =>
        simp only [ScreenerRealBR.scorePL, specContribPL, hp]
        by_cases h : 0 < v ∧ v ≤ 15
        · rw [if_pos ⟨h.1.ne', h.1, h.2⟩, if_pos h]
        · rw [if_neg (fun hc => h ⟨hc.2.1, hc.2.2⟩), if_neg h]
  · have hle : v / 15 ≤ 1 := by
      rw [div_le_one (by norm_num : (0 : ℚ) < 15)]; linarith
    have hnp : v / 15 ≤ 0 := div_nonpos_iff.mpr (Or.inr ⟨h0, by norm_num⟩)
    have heq : FundamentalistaBR.scorePL d = 20 * (1 - v / 15) := by
      simp only [FundamentalistaBR.scorePL, hv, FundamentalistaBR.pl_max]
      rw [if_pos (by linarith : v ≤ (15 : ℚ)), min_eq_left hle]
    exact ⟨heq, by rw [heq]; nlinarith⟩
  · simp only [FundamentalistaBR.scorePL, hv, FundamentalistaBR.pl_max]
    rw [if_neg (by linarith : ¬ v ≤ (15 : ℚ))]

/-- Claim C6: the four value-parser round trips.  `"12,5%"` cleans to
`"12.5"` and parses to 12.5 = 25/2; `"R$ 10.234,56"` cleans to `"10234.56"`
and parses to 10234.56 = 1023456/100; the placeholders `"-"` and `""` return
absent before any cleaning. -/
theorem claim_C6_roundtrip :
    FundamentalistaBR.converter_valor "12,5%" = some (25 / 2)
  ∧ FundamentalistaBR.converter_valor "R$ 10.234,56" = some (1023456 / 100)
  ∧ FundamentalistaBR.converter_valor "-" = none
  ∧ FundamentalistaBR.converter_valor "" = none := by
  refine ⟨?_, ?_, rfl, rfl⟩
  · have h1 : FundamentalistaBR.converter_valor "12,5%"
        = some (((12 : ℕ) : ℚ) + ((5 : ℕ) : ℚ) / 10 ^ 1) := rfl
    rw [h1]; norm_num
  · have h1 : FundamentalistaBR.converter_valor "R$ 10.234,56"
        = some (((10234 : ℕ) : ℚ) + ((56 : ℕ) : ℚ) / 10 ^ 2) := rfl
    rw [h1]; norm_num

/-- Claim C7: the value parser is a total function into `Option ℚ` (the
Python `try/except` turns every parse failure into `None`): every input
yields a rational or absent; the empty string and the placeholders `"-"` and
`"N/A"` yield absent; and whenever the cleaned string does not parse as a
number, the result is absent. -/
theorem claim_C7_never_errors :
    (∀ s : String, FundamentalistaBR.converter_valor s = none
        ∨ ∃ q : ℚ, FundamentalistaBR.converter_valor s = some q)
  ∧ FundamentalistaBR.converter_valor "" = none
  ∧ FundamentalistaBR.converter_valor "-" = none
  ∧ FundamentalistaBR.converter_valor "N/A" = none
  ∧ (∀ s : String,
        FundamentalistaBR.pyFloat (FundamentalistaBR.limpar (FundamentalistaBR.pyStrip s.data))
          = none →
        FundamentalistaBR.converter_valor s = none) := by
  refine ⟨fun s => ?_, rfl, rfl, rfl, fun s h => ?_⟩
  · cases hc : FundamentalistaBR.converter_valor s with
    | none => exact Or.inl rfl
    | some q => exact Or.inr ⟨q, rfl⟩
  · have hbody : FundamentalistaBR.converter_valor s =
        if FundamentalistaBR.pyStrip s.data = [] ∨ FundamentalistaBR.pyStrip s.data = ['-']
            ∨ FundamentalistaBR.pyStrip s.data = ['N', '/', 'A'] then none
        else FundamentalistaBR.pyFloat
          (FundamentalistaBR.limpar (FundamentalistaBR.pyStrip s.data)) := rfl
    rw [hbody]
    split_ifs with hp
    · rfl
    · exact h

/-- Claim C10 (implicit): the cleaning step removes every dot before numeric
conversion (all dots read as thousands separators), so a string with a single
dot as decimal point parses to the dot-stripped magnitude: "0.8" parses to
8.0 and "10.5" to 105.0, never to the dot-as-decimal reading. -/
theorem claim_C10_dot_stripping :
    (∀ l : List Char, (FundamentalistaBR.removeDots l).all (fun c => c != '.') = true)
  ∧ FundamentalistaBR.converter_valor "0.8" = some 8
  ∧ FundamentalistaBR.converter_valor "10.5" = some 105 := by
  refine ⟨fun l => ?_, ?_, ?_⟩
  · simp only [FundamentalistaBR.removeDots, List.all_eq_true, List.mem_filter]
    exact fun c hc => hc.2
  · have h1 : FundamentalistaBR.converter_valor "0.8" = some ((8 : ℕ) : ℚ) := rfl
    rw [h1]; norm_num
  · have h1 : FundamentalistaBR.converter_valor "10.5" = some ((105 : ℕ) : ℚ) := rfl
    rw [h1]; norm_num

/-- Claim C8, counterexample: Python's `or` treats a reported roe of exactly
0.0 as falsy, so `dados.get('roe') or dados.get('roe_aprox')` selects the
lower-priority approximation 15.0 even though the higher-priority source
provided the non-absent value 0.0 that the claimed rule (`specReconcile`)
would select. -/
theorem claim_C8_counterexample :
    ScreenerRealBR.roeOr (some 0) (some 15) = some 15
  ∧ specReconcile (some 0) (some 15) = some 0
  ∧ ScreenerRealBR.roeOr (some 0) (some 15) ≠ specReconcile (some 0) (some 15) := by
  have h1 : ScreenerRealBR.roeOr (some 0) (some 15) = some 15 := by
    simp [ScreenerRealBR.roeOr]
  have h2 : specReconcile (some 0) (some 15) = some 0 := rfl
  refine ⟨h1, h2, ?_⟩
  rw [h1, h2]
  intro hc
  have h3 : (15 : ℚ) = 0 := Option.some.inj hc
  norm_num at h3

/-- Claim C8 as amended: the roe fallback selects the directly reported roe
whenever it is present and nonzero — so a reported ROE outranks the
approximation `(pvp / pl) × 100` computed by `coletar_yfinance` — and falls
back to the approximation when the reported roe is absent (or exactly 0.0,
both falsy under Python `or`); in particular, reported roe absent and
approximated roe 15.0 reconcile to 15.0.  Wherever the reported roe is not
the falsy 0.0, this agrees with the claimed highest-priority-non-absent rule. -/
theorem claim_C8_reconciliation :
    (∀ (r : ℚ) (a : Option ℚ), r ≠ 0 → ScreenerRealBR.roeOr (some r) a = some r)
  ∧ (∀ a : Option ℚ, ScreenerRealBR.roeOr none a = a)
  ∧ ScreenerRealBR.roeOr none (some 15) = some 15
  ∧ (∀ a : Option ℚ, ScreenerRealBR.roeOr (some 0) a = a)
  ∧ (∀ p v : ℚ, p ≠ 0 → v ≠ 0 →
        ScreenerRealBR.roe_aprox (some p) (some v) = some (v / p * 100))
  ∧ (∀ (r a : Option ℚ), (∀ v : ℚ, r = some v → v ≠ 0) →
        ScreenerRealBR.roeOr r a = specReconcile r a) := by
  refine ⟨fun r a hr => by simp [ScreenerRealBR.roeOr, hr],
    fun a => rfl, rfl,
    fun a => by simp [ScreenerRealBR.roeOr],
    fun p v hp hv => by simp [ScreenerRealBR.roe_aprox, hp, hv],
    fun r a hr => ?_⟩
  cases hc : r with
  | none => rfl
  | some v =>
      have hv : v ≠ 0 := hr v hc
      simp [ScreenerRealBR.roeOr, specReconcile, hv]

/-- Claim C9, counterexample: `dados.update(dados_status)` writes the Status
Invest fields into the yfinance record in place — the combined record is the
mutated input record, not a fresh one.  With the yfinance partial record
`{pl=10, pvp=2, roe_aprox=20}` (roe absent, as `coletar_yfinance` never sets
roe) and a Status Invest record reporting roe=15, the post-merge state of
`dados` has roe = 15.0 while its pre-merge state had roe absent, so the input
partial record does not survive the merge unchanged. -/
theorem claim_C9_counterexample :
    (ScreenerRealBR.update { pl := some 10, pvp := some 2, roe_aprox := some 20 }
        (some { roe := some 15, roic := none, div_liq_ebitda := some 1 })).roe = some 15
  ∧ ({ pl := some 10, pvp := some 2, roe_aprox := some 20 } : ScreenerRealBR.Dados).roe = none
  ∧ ScreenerRealBR.update { pl := some 10, pvp := some 2, roe_aprox := some 20 }
        (some { roe := some 15, roic := none, div_liq_ebitda := some 1 })
      ≠ ({ pl := some 10, pvp := some 2, roe_aprox := some 20 } : ScreenerRealBR.Dados) := by
  refine ⟨rfl, rfl, fun hc => ?_⟩
  have h2 := congrArg ScreenerRealBR.Dados.roe hc
  simp [ScreenerRealBR.update] at h2

/-- Claim C9 as amended: merging never changes the Status Invest input record
(it is only read), and it preserves every yfinance field outside the three
status keys; but the combined record is produced by mutating the yfinance
record in place, so after the merge the yfinance input holds the combined
record, whose roe, roic and div_liq_ebitda fields are the Status Invest
values (the empty status dict of a failed collection changes nothing).  In
`FundamentalistaBR.buscar_dados_papel` the result dict is built fresh. -/
theorem claim_C9_merge_frame :
    (∀ (d : ScreenerRealBR.Dados) (s : Option ScreenerRealBR.DadosStatus),
        (ScreenerRealBR.update d s).pl = d.pl
      ∧ (ScreenerRealBR.update d s).pvp = d.pvp
      ∧ (ScreenerRealBR.update d s).dy = d.dy
      ∧ (ScreenerRealBR.update d s).preco = d.preco
      ∧ (ScreenerRealBR.update d s).volume = d.volume
      ∧ (ScreenerRealBR.update d s).market_cap = d.market_cap
      ∧ (ScreenerRealBR.update d s).roe_aprox = d.roe_aprox)
  ∧ (∀ (d : ScreenerRealBR.Dados) (st : ScreenerRealBR.DadosStatus),
        ScreenerRealBR.update d (some st)
          = { d with roe := st.roe, roic := st.roic, div_liq_ebitda := st.div_liq_ebitda })
  ∧ (∀ d : ScreenerRealBR.Dados, ScreenerRealBR.update d none = d) := by
  refine ⟨fun d s => ?_, fun d st => rfl, fun d => rfl⟩
  cases s with
  | none => exact ⟨rfl, rfl, rfl, rfl, rfl, rfl, rfl⟩
  | some st => exact ⟨rfl, rfl, rfl, rfl, rfl, rfl, rfl⟩
